import Mathlib

/-!
Verification of the knowledge-base synchronization subsystem of the
financial-insight-agent repository: a shallow embedding, in Lean 4, of

* `src/backend/embedding_statemachine/bedrock_knowledge_base/update_bot_status/index.py`
  (status updater: retry-wrapped DynamoDB write, cause extraction, payload resolution),
* `src/backend/embedding_statemachine/bedrock_knowledge_base/fetch_stack_output/index.py`
  (CloudFormation output fetch),
* the Step Functions state machine and EventBridge pipe declared in
  `src/infra/lib/constructs/embeddings.py` (`_create_state_machine`, `_setup_event_pipe`),
* `src/backend/auth/cognito_trigger/index.py` (Cognito trigger custom resource),

together with theorems settling the specification claims about them.
-/

namespace FinInsight

/-! ## Cause payloads and `extract_from_cause`

The `cause` field handed to the status updater is a JSON string.  We embed the
*parsed* shape of such a string as `CauseVal`; the raw string travels next to it
where the handler stores it verbatim.  `json.loads` failure and a parse result
without a `"Build"` key (the shape of a Lambda error cause, which carries
`errorMessage`/`errorType` but no `Build`) are distinguished constructors, since
`extract_from_cause` dies differently on each. -/

/-- One entry of `Build.Environment.EnvironmentVariables`: a `Name`/`Value` pair. -/
structure EnvVar where
  name : String
  value : String
deriving DecidableEq, Repr

/-- Parsed shape of a `cause` string, as seen by `extract_from_cause`
(`update_bot_status/index.py` lines 88-101):
`invalidJson` models a `json.JSONDecodeError` from `json.loads`;
`noBuildKey` models a successfully parsed object without a `"Build"` key
(so `cause["Build"]` raises `KeyError`), which is the shape of the JSON error
cause produced by a failed Lambda task;
`buildCause vars arn` models `{"Build": {"Environment": {"EnvironmentVariables": vars},
"Arn": arn}}` as produced by a failed CodeBuild job. -/
inductive CauseVal where
  | invalidJson
  | noBuildKey
  | buildCause (vars : List EnvVar) (arn : Option String)
deriving DecidableEq, Repr

/-- Truthiness of an optional string under Python semantics: `None` and `""` are falsy. -/
def pyFalsy : Option String → Bool
  | none => true
  | some s => s = ""

/-- Embedding of `extract_from_cause` (`update_bot_status/index.py` lines 74-107):
`pk`/`sk` are the `Value` of the first `EnvironmentVariables` entry whose `Name`
is `"PK"` (resp. `"SK"`); `if not pk or not sk: raise ValueError(...)` rejects an
absent entry and likewise an entry whose value is the empty string (Python
truthiness); `build_arn = cause["Build"].get("Arn", "")`. -/
def extract_from_cause : CauseVal → Except String (String × String × String)
  | CauseVal.invalidJson => Except.error "JSONDecodeError"
  | CauseVal.noBuildKey => Except.error "KeyError"
  | CauseVal.buildCause vars arn =>
    let pk := (vars.find? (fun item => item.name == "PK")).map (fun item => item.value)
    let sk := (vars.find? (fun item => item.name == "SK")).map (fun item => item.value)
    if pyFalsy pk || pyFalsy sk then Except.error "PK or SK not found in cause"
    else Except.ok (pk.getD "", sk.getD "", arn.getD "")

/-! ## The status-update event and its resolution (`handler`, lines 134-156) -/

/-- The `ingestion_job` field of a status-update event:
`{"IngestionJob": {"FailureReasons": ..., "IngestionJobId": ...}}`.
`failureReasonsText` stands for `str(ingestion_job["IngestionJob"]["FailureReasons"])`,
the Python string rendering of the failure-reason list. -/
structure IngestionJobField where
  failureReasonsText : String
  ingestionJobId : String
deriving DecidableEq, Repr

/-- A status-update Lambda event.  `cause`, when present, carries the raw JSON
string together with its parsed shape (the two components are tied by the
convention that the second is `json.loads` of the first).  Absent dictionary
keys are `none`; a present-but-empty `ingestion_job` dictionary is falsy in
Python and cannot carry an `IngestionJob` key, so it is modelled as `none`. -/
structure UpdEvent where
  cause : Option (String × CauseVal)
  ingestion_job : Option IngestionJobField
  pk : Option String
  sk : Option String
  sync_status : Option String
  sync_status_reason : Option String
  last_exec_id : Option String
deriving DecidableEq, Repr

/-- The five arguments the handler feeds to `update_sync_status`. -/
structure ResolvedUpdate where
  pk : String
  sk : String
  sync_status : String
  sync_status_reason : String
  last_exec_id : String
deriving DecidableEq, Repr

/-- Truthiness of the `cause` field: Python's `if cause:` on the raw string. -/
def causeTruthy : Option (String × CauseVal) → Bool
  | none => false
  | some (raw, _) => decide (raw ≠ "")

/-- The `elif ingestion_job:` and final `else` branches of `handler`
(`update_bot_status/index.py` lines 142-153).  `event["pk"]`/`event["sk"]`/
`event["sync_status"]` raise `KeyError` when absent; `event.get(...)`
defaults to the empty string. -/
def resolveNonCause (e : UpdEvent) : Except String ResolvedUpdate :=
  match e.ingestion_job with
  | some job =>
    match e.pk, e.sk with
    | some pk, some sk =>
      Except.ok ⟨pk, sk, "FAILED", job.failureReasonsText, job.ingestionJobId⟩
    | _, _ => Except.error "KeyError"
  | none =>
    match e.pk, e.sk, e.sync_status with
    | some pk, some sk, some st =>
      Except.ok ⟨pk, sk, st, e.sync_status_reason.getD "", e.last_exec_id.getD ""⟩
    | _, _, _ => Except.error "KeyError"

/-- Embedding of the payload resolution in `handler`
(`update_bot_status/index.py` lines 134-153): a truthy `cause` is processed
first (status `FAILED`, reason the raw cause string, `last_exec_id` the build
ARN or `""`), a truthy `ingestion_job` only otherwise, the direct shape last.
An `Except.error` models the handler raising before any store write. -/
def resolveUpdate (e : UpdEvent) : Except String ResolvedUpdate :=
  match e.cause with
  | some (raw, val) =>
    if raw = "" then resolveNonCause e
    else
      match extract_from_cause val with
      | Except.ok (pk, sk, arn) => Except.ok ⟨pk, sk, "FAILED", raw, arn⟩
      | Except.error m => Except.error m
  | none => resolveNonCause e

/-! ## The retry wrapper of `update_sync_status` (lines 24-29)

`@retry(tries=RETRIES_TO_UPDATE_SYNC_STATUS, delay=RETRY_DELAY_TO_UPDATE_SYNC_STATUS)`
calls the body up to `tries` times, sleeping `delay` seconds between consecutive
attempts, re-raising the last exception once the attempts are exhausted. -/

def RETRIES_TO_UPDATE_SYNC_STATUS : Nat := 4

def RETRY_DELAY_TO_UPDATE_SYNC_STATUS : Nat := 2

/-- Outcome of a retry-wrapped call: whether it finally succeeded, how many
attempts ran, and the sleeps (in seconds) performed between attempts. -/
structure RetryResult where
  success : Bool
  attempts : Nat
  delays : List Nat
deriving DecidableEq, Repr

/-- One run of the `retry` decorator's loop with `n` tries left, the next
attempt having index `i`; `ok i` tells whether the `i`-th underlying
`table.update_item` call succeeds. -/
def retryRun (ok : Nat → Bool) : Nat → Nat → RetryResult
  | 0, _ => ⟨false, 0, []⟩
  | n + 1, i =>
    if ok i then ⟨true, 1, []⟩
    else if n = 0 then ⟨false, 1, []⟩
    else
      let r := retryRun ok n (i + 1)
      ⟨r.success, r.attempts + 1, RETRY_DELAY_TO_UPDATE_SYNC_STATUS :: r.delays⟩

/-- A call to the retry-decorated `update_sync_status`, abstracted over which
underlying store writes succeed. -/
def update_sync_status_call (ok : Nat → Bool) : RetryResult :=
  retryRun ok RETRIES_TO_UPDATE_SYNC_STATUS 0

/-! ## The DynamoDB write of `update_sync_status` (lines 50-70) -/

/-- Modelled from the spec: the composite bot identifier.  The module
`app.repositories.custom_bot` providing `compose_bot_id`/`decompose_bot_id` is
not under `src/`; per spec section 4.3 the record's `SK` has the shape
`BOT#abc` and the bot id is the segment after the final `#`. -/
def decompose_bot_id (sk : String) : String :=
  ((sk.splitOn "#").getLast?).getD sk

/-- Modelled from the spec: rebuilds the composite bot identifier (`SK`) from
the owner and bot ids; spec section 4.3 shows the `BOT#<bot_id>` shape.  The
owner id is part of the call signature in the source but does not appear in
the `SK` shape the spec documents. -/
def compose_bot_id (_user_id bot_id : String) : String :=
  "BOT#" ++ bot_id

/-- The stored `BotSyncRecord` attributes.  `none` models an absent attribute. -/
structure BotRecord where
  syncStatus : Option String
  syncStatusReason : Option String
  lastExecId : Option String
  knowledgeBaseId : Option String
  dataSourceIds : Option (List String)
  guardrailArn : Option String
  guardrailVersion : Option String
deriving DecidableEq, Repr

/-- The DynamoDB table, keyed by `(PK, SK)`. -/
abbrev Table : Type := String × String → Option BotRecord

/-- Effect of the `UpdateExpression`
`SET SyncStatus = :s, SyncStatusReason = :r, LastExecId = :e` on one item;
`update_item` upserts, creating the item with only the SET attributes when
it does not exist. -/
def applySyncStatusSet (status reason exec : String) : Option BotRecord → BotRecord
  | some r => { r with syncStatus := some status, syncStatusReason := some reason,
                       lastExecId := some exec }
  | none => { syncStatus := some status, syncStatusReason := some reason,
              lastExecId := some exec, knowledgeBaseId := none, dataSourceIds := none,
              guardrailArn := none, guardrailVersion := none }

/-- Embedding of the store write in `update_sync_status`
(`update_bot_status/index.py` lines 62-70): one `update_item` against the key
`{"PK": user_id, "SK": compose_bot_id(user_id, bot_id)}`. -/
def update_sync_status_write (user_id bot_id status reason exec : String)
    (t : Table) : Table :=
  fun key =>
    if key = (user_id, compose_bot_id user_id bot_id)
    then some (applySyncStatusSet status reason exec (t key))
    else t key


/-! ## Embedding of `fetch_stack_output/index.py` -/

/-- Python's `str.startswith`, on the character lists of the strings (chosen
so that concrete instances evaluate by the kernel). -/
def strStartsWith (pre s : String) : Bool :=
  List.isPrefixOf pre.data s.data

/-- One CloudFormation stack output entry (`OutputKey`/`OutputValue`). -/
structure CfnOutput where
  OutputKey : String
  OutputValue : String
deriving DecidableEq, Repr

/-- One element of the list the fetch handler returns. -/
structure StackOutput where
  KnowledgeBaseId : String
  DataSourceId : String
  GuardrailArn : String
  GuardrailVersion : String
  PK : String
  SK : String
deriving DecidableEq, Repr

/-- The dictionary built by `get_stack_outputs` (`fetch_stack_output/index.py`
lines 38-70) from the stack's output list: the first `KnowledgeBaseId` /
`GuardrailArn` / `GuardrailVersion` values (`None` when absent) and all values
whose key starts with `DataSource`, in list order. -/
structure StackOutputsDict where
  knowledge_base_id : Option String
  data_source_ids : List String
  guardrail_arn : Option String
  guardrail_version : Option String
deriving DecidableEq, Repr

/-- Embedding of `get_stack_outputs` (`fetch_stack_output/index.py` lines 38-70). -/
def get_stack_outputs (outputs : List CfnOutput) : StackOutputsDict :=
  { knowledge_base_id :=
      (outputs.find? (fun o => o.OutputKey == "KnowledgeBaseId")).map
        (fun o => o.OutputValue)
  , data_source_ids :=
      (outputs.filter (fun o => strStartsWith "DataSource" o.OutputKey)).map
        (fun o => o.OutputValue)
  , guardrail_arn :=
      (outputs.find? (fun o => o.OutputKey == "GuardrailArn")).map
        (fun o => o.OutputValue)
  , guardrail_version :=
      (outputs.find? (fun o => o.OutputKey == "GuardrailVersion")).map
        (fun o => o.OutputValue) }

/-- Embedding of the fetch handler (`fetch_stack_output/index.py` lines 77-118),
abstracted over the output list that `describe_stacks` returns for the bot's
stack: `if not outputs["knowledge_base_id"] or not outputs["data_source_ids"]:`
raises `ValueError("Required stack outputs missing")`; otherwise one
`StackOutput` per data-source id, with guardrail fields defaulted to `""`. -/
def fetch_stack_output_handler (pk sk : String) (outputs : List CfnOutput) :
    Except String (List StackOutput) :=
  let o := get_stack_outputs outputs
  if pyFalsy o.knowledge_base_id || o.data_source_ids.isEmpty then
    Except.error "Required stack outputs missing"
  else
    Except.ok (o.data_source_ids.map (fun ds =>
      { KnowledgeBaseId := o.knowledge_base_id.getD ""
      , DataSourceId := ds
      , GuardrailArn := o.guardrail_arn.getD ""
      , GuardrailVersion := o.guardrail_version.getD ""
      , PK := pk
      , SK := sk }))

/-! ## Embedding of the EventBridge pipe (`_setup_event_pipe`, embeddings.py lines 520-597)

Source parameters: `batch_size=1`, `maximum_retry_attempts=1`; the filter
pattern requires `dynamodb.NewImage.SyncStatus.S` to match
`[ {"prefix": "QUEUED"} ]`; the target is the state machine with
`invocation_type="FIRE_AND_FORGET"`. -/

/-- One change-stream record, projected to the fields the pipe inspects:
`syncStatus` is `dynamodb.NewImage.SyncStatus.S` when that path exists. -/
structure ChangeRecord where
  pk : String
  sk : String
  syncStatus : Option String
deriving DecidableEq, Repr

/-- The pipe's filter pattern: matches when the record has a
`NewImage.SyncStatus.S` string starting with `QUEUED`. -/
def pipeFilterMatches (r : ChangeRecord) : Bool :=
  match r.syncStatus with
  | some s => strStartsWith "QUEUED" s
  | none => false

def pipe_batch_size : Nat := 1

def pipe_maximum_retry_attempts : Nat := 1

def pipe_invocation_type : String := "FIRE_AND_FORGET"

/-- The state-machine executions the pipe starts for a sequence of committed
change records: one invocation per record passing the filter, each carrying a
batch of `batch_size = 1` record. -/
def pipeDeliveredInvocations (records : List ChangeRecord) : List (List ChangeRecord) :=
  (records.filter pipeFilterMatches).map (fun r => [r])

/-! ## Embedding of the state machine (`_create_state_machine`, embeddings.py lines 282-518)

The declared chain is
`ExtractFirstElement → UpdateSyncStatusRunning → StartCustomBotBuild →
FetchStackOutput → StoreKnowledgeBase → StoreGuardrail → MapIngestion →
UpdateSyncStatusSuccess`, with `add_catch(fallback)` on exactly
`StartCustomBotBuild`, `FetchStackOutput`, `StoreKnowledgeBase` and
`StoreGuardrail` (lines 509-512), where
`fallback = UpdateSyncStatusFailed → Fail` and `UpdateSyncStatusFailed`
invokes the status updater with payload `cause.$ = $.Cause`.  The map iterator
(`max_concurrency=1`) is `StartIngestion → GetIngestionStatus →
CheckIngestionStatus`, the choice looping through `WaitForIngestion` (3s) on a
non-terminal status, passing on `COMPLETE`, and routing `FAILED` through
`UpdateSyncStatusFailed` to a `Fail` state.

Error propagation of an uncaught task failure follows the host orchestration
semantics the spec states in section 6: a step failure with no catch
transition terminates the execution.  A catch with the default result path
replaces the state input by the error object, so in the fallback entered from
the four caught states the path `$.Cause` resolves to the failure cause: for
the CodeBuild `RUN_JOB` task a JSON object holding the `Build` description
(environment variables and ARN included), for a failed Lambda task the
serialized error object (`errorMessage`/`errorType`, no `Build` key).  Inside
the map iterator the context is one `StackOutput` element plus
`$.IngestionJob`; the path `$.Cause` does not exist there, so computing the
`UpdateSyncStatusFailed` payload fails and, that task having no catch, the
execution terminates before any status write. -/

/-- Observable actions of one state-machine run, in execution order.
`statusWrite` records a completed DynamoDB update by the status-updater
Lambda, with the five resolved arguments. -/
inductive Ev where
  | statusWrite (pk sk status reason exec : String)
  | buildStart
  | fetchOutputs
  | storeKnowledgeBase
  | storeGuardrail
  | ingestStart (dataSourceId : String)
deriving DecidableEq, Repr

/-- How a run terminates: implicit success after `UpdateSyncStatusSuccess`;
the explicit `Fail` state reached through the fallback; an execution failure
from an uncaught task error; or endless polling of a never-terminal ingestion
job. -/
inductive RunTerminal where
  | success
  | failState
  | runtimeError
  | stuck
deriving DecidableEq, Repr

/-- The trace of one run. -/
structure RunTrace where
  events : List Ev
  terminal : RunTerminal
deriving DecidableEq, Repr

/-- Outcome of the CodeBuild job started by `StartCustomBotBuild`: on failure,
the catch delivers the serialized build description as `$.Cause` (`rawCause`),
whose parse carries the override environment variables and the build ARN. -/
inductive BuildOutcome where
  | success
  | failure (rawCause : String) (arn : String)
deriving DecidableEq, Repr

/-- Environment of one state-machine run: the triggering record's key fields,
the behaviour of each external dependency, and per-data-source ingestion-job
status sequences (`jobStatuses i` lists the statuses successive
`GetIngestionStatus` polls observe for the `i`-th data source). -/
structure SMEnv where
  pk : String
  sk : String
  documentBucket : String
  knowledgeJson : String
  kbConfigJson : String
  guardrailsJson : String
  useStandbyReplicas : String
  runningDbOk : Bool
  build : BuildOutcome
  cfOutputs : List CfnOutput
  storeKbOk : Bool
  storeGuardrailOk : Bool
  jobStatuses : Nat → List String
  failedDbOk : Bool
  succeededDbOk : Bool

/-- The `environment_variables_override` of `StartCustomBotBuild`
(embeddings.py lines 312-347), which is what a failed build's cause carries in
`Build.Environment.EnvironmentVariables`. -/
def buildEnvVars (env : SMEnv) : List EnvVar :=
  [ ⟨"PK", env.pk⟩
  , ⟨"SK", env.sk⟩
  , ⟨"DOCUMENT_BUCKET", env.documentBucket⟩
  , ⟨"KNOWLEDGE", env.knowledgeJson⟩
  , ⟨"BEDROCK_KNOWLEDGE_BASE", env.kbConfigJson⟩
  , ⟨"BEDROCK_GUARDRAILS", env.guardrailsJson⟩
  , ⟨"USE_STANDBY_REPLICAS", env.useStandbyReplicas⟩ ]

/-- Model stand-in for the raw serialized error object of a failed Lambda task
(non-empty; parses to an object without a `Build` key). -/
def lambdaErrorCauseRaw : String := "errorMessage"

/-- Terminal result of polling one ingestion job. -/
inductive JobEnd where
  | complete
  | failed
  | stuck
deriving DecidableEq, Repr

/-- Result of the ingestion map. -/
inductive MapEnd where
  | done
  | failedAt (idx : Nat)
  | stuck
deriving DecidableEq, Repr

/-- The `CheckIngestionStatus` poll loop (embeddings.py lines 439-487) on the
sequence of statuses successive polls observe: `COMPLETE` ends the iteration,
`FAILED` routes to the failure branch, anything else waits 3 seconds and
re-polls. -/
def pollJob : List String → JobEnd
  | [] => JobEnd.stuck
  | s :: rest =>
    if s = "COMPLETE" then JobEnd.complete
    else if s = "FAILED" then JobEnd.failed
    else pollJob rest

/-- The `MapIngestion` state (embeddings.py lines 489-497) over the fetch
handler's output list, with `max_concurrency=1`: data sources are processed
strictly in order, each starting an ingestion job and polling it; a `FAILED`
status or a never-terminal job stops the map with no further job started. -/
def runIngestion (stat : Nat → List String) : List StackOutput → Nat → List Ev × MapEnd
  | [], _ => ([], MapEnd.done)
  | item :: rest, i =>
    match pollJob (stat i) with
    | JobEnd.complete =>
      let r := runIngestion stat rest (i + 1)
      (Ev.ingestStart item.DataSourceId :: r.1, r.2)
    | JobEnd.failed => ([Ev.ingestStart item.DataSourceId], MapEnd.failedAt i)
    | JobEnd.stuck => ([Ev.ingestStart item.DataSourceId], MapEnd.stuck)

/-- The event recorded for a completed status write. -/
def statusWriteEv (w : ResolvedUpdate) : Ev :=
  Ev.statusWrite w.pk w.sk w.sync_status w.sync_status_reason w.last_exec_id

/-- Payload built by `_create_sync_status_task` (embeddings.py lines 687-722):
`pk`/`sk` from the record's new image, a literal status and reason, and no
`last_exec_id` (no `last_exec_id_path` is passed at either call site). -/
def syncStatusTaskPayload (pk sk status reason : String) : UpdEvent :=
  { cause := none, ingestion_job := none, pk := some pk, sk := some sk,
    sync_status := some status, sync_status_reason := some reason,
    last_exec_id := none }

/-- The fallback chain `UpdateSyncStatusFailed → Fail` (embeddings.py lines
362-381): the status updater is invoked with payload `cause.$ = $.Cause`; if
its resolution raises, the task fails and, having no catch, the execution
terminates (`runtimeError`); otherwise the write runs (`dbOk` tells whether
the store write succeeds after its retries) and the run ends in the explicit
`Fail` state. -/
def fallbackRun (prior : List Ev) (raw : String) (val : CauseVal) (dbOk : Bool) :
    RunTrace :=
  match resolveUpdate { cause := some (raw, val), ingestion_job := none, pk := none,
                        sk := none, sync_status := none, sync_status_reason := none,
                        last_exec_id := none } with
  | Except.error _ => ⟨prior, RunTerminal.runtimeError⟩
  | Except.ok w =>
    if dbOk then ⟨prior ++ [statusWriteEv w], RunTerminal.failState⟩
    else ⟨prior, RunTerminal.runtimeError⟩

/-- The tail of the run from `UpdateSyncStatusSuccess` (no catch transition):
a write failure terminates the execution; success ends the run. -/
def succeededPhase (env : SMEnv) (evs : List Ev) : RunTrace :=
  match resolveUpdate (syncStatusTaskPayload env.pk env.sk "SUCCEEDED"
      "Knowledge base sync succeeded") with
  | Except.error _ => ⟨evs, RunTerminal.runtimeError⟩
  | Except.ok w =>
    if env.succeededDbOk then ⟨evs ++ [statusWriteEv w], RunTerminal.success⟩
    else ⟨evs, RunTerminal.runtimeError⟩

/-- The run from `MapIngestion` on: a `FAILED` ingestion job routes to
`UpdateSyncStatusFailed`, whose payload path `$.Cause` does not resolve in the
iterator context, so the execution terminates with no status write; a
never-terminal job polls forever. -/
def ingestionPhase (env : SMEnv) (evs : List Ev) (items : List StackOutput) :
    RunTrace :=
  match runIngestion env.jobStatuses items 0 with
  | (ingEvs, MapEnd.failedAt _) => ⟨evs ++ ingEvs, RunTerminal.runtimeError⟩
  | (ingEvs, MapEnd.stuck) => ⟨evs ++ ingEvs, RunTerminal.stuck⟩
  | (ingEvs, MapEnd.done) => succeededPhase env (evs ++ ingEvs)

/-- The run from `StoreKnowledgeBase` on: both persistence steps carry the
catch to the fallback, whose `$.Cause` is the serialized Lambda error. -/
def storesPhase (env : SMEnv) (evs : List Ev) (items : List StackOutput) :
    RunTrace :=
  if env.storeKbOk = false then
    fallbackRun evs lambdaErrorCauseRaw CauseVal.noBuildKey env.failedDbOk
  else if env.storeGuardrailOk = false then
    fallbackRun (evs ++ [Ev.storeKnowledgeBase]) lambdaErrorCauseRaw
      CauseVal.noBuildKey env.failedDbOk
  else
    ingestionPhase env (evs ++ [Ev.storeKnowledgeBase, Ev.storeGuardrail]) items

/-- The run from `FetchStackOutput` on: the step carries the catch to the
fallback; its failure cause is the serialized Lambda error. -/
def fetchPhase (env : SMEnv) (evs : List Ev) : RunTrace :=
  match fetch_stack_output_handler env.pk env.sk env.cfOutputs with
  | Except.error _ => fallbackRun evs lambdaErrorCauseRaw CauseVal.noBuildKey env.failedDbOk
  | Except.ok items => storesPhase env (evs ++ [Ev.fetchOutputs]) items

/-- The run from `StartCustomBotBuild` on: a build failure is caught and the
fallback's `$.Cause` is the serialized build description, carrying the
override environment variables and the build ARN. -/
def buildPhase (env : SMEnv) (evs : List Ev) : RunTrace :=
  match env.build with
  | BuildOutcome.failure raw arn =>
    fallbackRun (evs ++ [Ev.buildStart]) raw
      (CauseVal.buildCause (buildEnvVars env) (some arn)) env.failedDbOk
  | BuildOutcome.success => fetchPhase env (evs ++ [Ev.buildStart])

/-- One full run of the state machine: `ExtractFirstElement` (a pure reshape
with no failure edge), then `UpdateSyncStatusRunning`, which has no catch
transition, so a failing store write terminates the execution at once. -/
def runMachine (env : SMEnv) : RunTrace :=
  match resolveUpdate (syncStatusTaskPayload env.pk env.sk "RUNNING" "") with
  | Except.error _ => ⟨[], RunTerminal.runtimeError⟩
  | Except.ok w =>
    if env.runningDbOk then buildPhase env [statusWriteEv w]
    else ⟨[], RunTerminal.runtimeError⟩


/-! ## Embedding of the Cognito trigger custom resource (`cognito_trigger/index.py`)

Python dictionaries are embedded as ordered association lists with unique
keys; `d[k]` is the first (hence only) binding of `k`.  The `Update` branch of
`handler` (lines 186-206) computes
`{**{k: v for k, v in lambda_config.items() if k not in old_triggers.keys()}, **triggers}`
where `lambda_config` is the user pool's current `LambdaConfig`,
`old_triggers` is `event["OldResourceProperties"]["Triggers"]` (default `{}`)
and `triggers` is `event["ResourceProperties"]["Triggers"]`. -/

/-- A Python dictionary of strings, as an ordered association list with unique
keys. -/
abbrev PyDict : Type := List (String × String)

/-- Dictionary lookup `d[k]`: the binding of `k` (the first, keys being unique). -/
def pyLookup : PyDict → String → Option String
  | [], _ => none
  | kv :: t, k => if kv.1 = k then some kv.2 else pyLookup t k

/-- Python's `k in d.keys()`. -/
def pyHasKey (d : PyDict) (k : String) : Bool :=
  (pyLookup d k).isSome

/-- Python's `{**a, **b}`: the entries of `a`, values overridden by `b` where
`b` binds the same key, followed by the entries of `b` whose keys are new. -/
def pyMergeDicts (a b : PyDict) : PyDict :=
  (a.map (fun kv =>
    match pyLookup b kv.1 with
    | some v => (kv.1, v)
    | none => kv))
  ++ b.filter (fun kv => !(pyHasKey a kv.1))

/-- The dictionary comprehension
`{k: v for k, v in lambda_config.items() if k not in old_triggers.keys()}`. -/
def removeOldTriggerKeys (cfg old : PyDict) : PyDict :=
  cfg.filter (fun kv => !(pyHasKey old kv.1))

/-- The `LambdaConfig` the `Update` branch of `handler` sends to
`update_user_pool` (`cognito_trigger/index.py` lines 194-206). -/
def updateRequestLambdaConfig (current old triggers : PyDict) : PyDict :=
  pyMergeDicts (removeOldTriggerKeys current old) triggers

theorem pyLookup_append (xs ys : PyDict) (k : String) :
    pyLookup (xs ++ ys) k =
      match pyLookup xs k with
      | some v => some v
      | none => pyLookup ys k := by
  induction xs with
  | nil => rfl
  | cons kv t ih =>
    by_cases h : kv.1 = k
    · simp [pyLookup, h]
    · simp [pyLookup, h, ih]

theorem pyLookup_overwrite (a b : PyDict) (k : String) :
    pyLookup (a.map (fun kv =>
      match pyLookup b kv.1 with
      | some v => (kv.1, v)
      | none => kv)) k =
      match pyLookup a k, pyLookup b k with
      | some _, some v => some v
      | some v0, none => some v0
      | none, _ => none := by
  induction a with
  | nil => cases pyLookup b k <;> rfl
  | cons kv t ih =>
    cases hb : pyLookup b kv.1 with
    | some v =>
      by_cases h : kv.1 = k
      · subst h
        simp [pyLookup, hb]
      · simp [pyLookup, hb, h, ih]
    | none =>
      by_cases h : kv.1 = k
      · subst h
        simp [pyLookup, hb]
      · simp [pyLookup, hb, h, ih]

theorem pyLookup_filter_key (l : PyDict) (p : String → Bool) (k : String) :
    pyLookup (l.filter (fun kv => p kv.1)) k =
      if p k = true then pyLookup l k else none := by
  induction l with
  | nil => simp [pyLookup]
  | cons kv t ih =>
    by_cases h : kv.1 = k
    · subst h
      cases hp : p kv.1 <;> simp [List.filter_cons, pyLookup, hp, ih]
    · cases hp : p kv.1 <;> simp [List.filter_cons, pyLookup, hp, h, ih]

theorem pyLookup_merge (a b : PyDict) (k : String) :
    pyLookup (pyMergeDicts a b) k =
      match pyLookup b k with
      | some v => some v
      | none => pyLookup a k := by
  unfold pyMergeDicts
  rw [pyLookup_append, pyLookup_overwrite,
    pyLookup_filter_key b (fun x => !(pyHasKey a x)) k]
  unfold pyHasKey
  cases ha : pyLookup a k <;> cases hb : pyLookup b k <;> simp [ha, hb]

/-! ## Helper lemmas about the retry loop and the ingestion map -/

theorem retryRun_attempts_le (ok : Nat → Bool) :
    ∀ n i, (retryRun ok n i).attempts ≤ n := by
  intro n
  induction n with
  | zero => intro i; simp [retryRun]
  | succ m ih =>
    intro i
    by_cases h : ok i = true
    · simp [retryRun, h]
    · by_cases hm : m = 0
      · simp [retryRun, h, hm]
      · have := ih (i + 1)
        simp only [retryRun, h, hm, if_false, if_neg hm]
        simp only [Bool.not_eq_true] at h
        simp [h]
        omega

theorem retryRun_delays_fixed (ok : Nat → Bool) :
    ∀ n i d, d ∈ (retryRun ok n i).delays → d = RETRY_DELAY_TO_UPDATE_SYNC_STATUS := by
  intro n
  induction n with
  | zero => intro i d hd; simp [retryRun] at hd
  | succ m ih =>
    intro i d hd
    by_cases h : ok i = true
    · simp [retryRun, h] at hd
    · by_cases hm : m = 0
      · simp [retryRun, h, hm] at hd
      · simp only [Bool.not_eq_true] at h
        simp [retryRun, h, hm] at hd
        rcases hd with hd | hd
        · exact hd
        · exact ih (i + 1) d hd

theorem retryRun_success_of_firstOk (ok : Nat → Bool) :
    ∀ n i k, k < n → ok (i + k) = true → (∀ j, j < k → ok (i + j) = false) →
      (retryRun ok n i).success = true := by
  intro n
  induction n with
  | zero => intro i k hk; omega
  | succ m ih =>
    intro i k hk hok hfail
    cases k with
    | zero =>
      have h0 : ok i = true := by simpa using hok
      simp [retryRun, h0]
    | succ j =>
      have h0 : ok i = false := by simpa using hfail 0 (Nat.succ_pos j)
      have hm : m ≠ 0 := by omega
      have hrec : (retryRun ok m (i + 1)).success = true := by
        apply ih (i + 1) j (by omega)
        · have e : i + 1 + j = i + (j + 1) := by omega
          rw [e]; exact hok
        · intro j' hj'
          have e : i + 1 + j' = i + (j' + 1) := by omega
          rw [e]; exact hfail (j' + 1) (by omega)
      simp [retryRun, h0, hm, hrec]

theorem retryRun_fail_of_allFail (ok : Nat → Bool) :
    ∀ n i, (∀ k, k < n → ok (i + k) = false) → (retryRun ok n i).success = false := by
  intro n
  induction n with
  | zero => intro i _; simp [retryRun]
  | succ m ih =>
    intro i hfail
    have h0 : ok i = false := by simpa using hfail 0 (Nat.succ_pos m)
    by_cases hm : m = 0
    · simp [retryRun, h0, hm]
    · have hrec : (retryRun ok m (i + 1)).success = false := by
        apply ih (i + 1)
        intro k hk
        have e : i + 1 + k = i + (k + 1) := by omega
        rw [e]; exact hfail (k + 1) (by omega)
      simp [retryRun, h0, hm, hrec]

theorem runIngestion_all_complete (stat : Nat → List String) :
    ∀ (items : List StackOutput) (i : Nat),
      (∀ j, j < items.length → pollJob (stat (i + j)) = JobEnd.complete) →
      runIngestion stat items i =
        (items.map (fun it => Ev.ingestStart it.DataSourceId), MapEnd.done) := by
  intro items
  induction items with
  | nil => intro i _; rfl
  | cons item rest ih =>
    intro i h
    have h0 : pollJob (stat i) = JobEnd.complete := by
      simpa using h 0 (by simp)
    have hr := ih (i + 1) (fun j hj => by
      have e : i + 1 + j = i + (j + 1) := by omega
      rw [e]
      exact h (j + 1) (by simp; omega))
    simp [runIngestion, h0, hr]

theorem runIngestion_events_shape (stat : Nat → List String) :
    ∀ (items : List StackOutput) (i : Nat) (e : Ev),
      e ∈ (runIngestion stat items i).1 → ∃ ds, e = Ev.ingestStart ds := by
  intro items
  induction items with
  | nil => intro i e he; simp [runIngestion] at he
  | cons item rest ih =>
    intro i e he
    cases hp : pollJob (stat i) with
    | complete =>
      simp [runIngestion, hp] at he
      rcases he with he | he
      · exact ⟨item.DataSourceId, he⟩
      · exact ih (i + 1) e he
    | failed =>
      simp [runIngestion, hp] at he
      exact ⟨item.DataSourceId, he⟩
    | stuck =>
      simp [runIngestion, hp] at he
      exact ⟨item.DataSourceId, he⟩

/-! ## Claim C7: idempotence of the status write -/

/-- C7: for all valid `(owner_id, bot_id, status, reason, exec_id)`, calling
the Status Updater twice in succession with identical arguments leaves the
`BotSyncRecord` store in the same final state as calling it once: the
`update_item` is a pure overwrite of the `SyncStatus`, `SyncStatusReason` and
`LastExecId` attributes, not an increment. -/
theorem C7_status_update_idempotent (user_id bot_id status reason exec : String)
    (t : Table) :
    update_sync_status_write user_id bot_id status reason exec
        (update_sync_status_write user_id bot_id status reason exec t)
      = update_sync_status_write user_id bot_id status reason exec t := by
  funext key
  by_cases h : key = (user_id, compose_bot_id user_id bot_id)
  · subst h
    simp only [update_sync_status_write, if_pos rfl]
    cases t (user_id, compose_bot_id user_id bot_id) <;> rfl
  · simp only [update_sync_status_write, if_neg h]

/-! ## Claim C5: bounded retry of the status write -/

/-- C5: every call to the Status Updater attempts the underlying store write
at most `RETRIES_TO_UPDATE_SYNC_STATUS = 4` times, sleeping the fixed
`RETRY_DELAY_TO_UPDATE_SYNC_STATUS = 2` seconds between attempts; if the write
fails fewer than 4 times and then succeeds the call reports success, and if it
fails on all 4 attempts the failure propagates to the caller. -/
theorem C5_status_update_retry (ok : Nat → Bool) :
    ((update_sync_status_call ok).attempts ≤ RETRIES_TO_UPDATE_SYNC_STATUS)
    ∧ (∀ d, d ∈ (update_sync_status_call ok).delays →
        d = RETRY_DELAY_TO_UPDATE_SYNC_STATUS)
    ∧ (∀ k, k < RETRIES_TO_UPDATE_SYNC_STATUS → ok k = true →
        (∀ j, j < k → ok j = false) → (update_sync_status_call ok).success = true)
    ∧ ((∀ k, k < RETRIES_TO_UPDATE_SYNC_STATUS → ok k = false) →
        (update_sync_status_call ok).success = false) := by
  refine ⟨retryRun_attempts_le ok _ 0, fun d hd => retryRun_delays_fixed ok _ 0 d hd,
    fun k hk hok hfail => ?_, fun hall => ?_⟩
  · exact retryRun_success_of_firstOk ok _ 0 k hk (by simpa using hok)
      (fun j hj => by simpa using hfail j hj)
  · exact retryRun_fail_of_allFail ok _ 0 (fun k hk => by simpa using hall k hk)

/-- Witness for C5: with the first two writes failing and the third
succeeding the call succeeds; with every write failing it fails. -/
theorem C5_witness :
    ((update_sync_status_call (fun n => decide (n = 2))).success = true)
    ∧ ((update_sync_status_call (fun _ => false)).success = false) := by
  constructor
  · exact (C5_status_update_retry (fun n => decide (n = 2))).2.2.1 2 (by decide)
      (by decide) (fun j hj => by interval_cases j <;> rfl)
  · exact (C5_status_update_retry (fun _ => false)).2.2.2 (fun k _ => rfl)


/-! ## Claim C4: cause extraction -/

/-- Value of the first `EnvironmentVariables` entry named `n`, exactly as the
two `next(...)` expressions in `extract_from_cause` compute it. -/
def firstEnvValue (vars : List EnvVar) (n : String) : Option String :=
  (vars.find? (fun item => item.name == n)).map (fun item => item.value)

/-- Reduction of `extract_from_cause` on a parsed build cause, phrased through
`firstEnvValue`. -/
theorem extract_from_cause_buildCause (vars : List EnvVar) (arn : Option String) :
    extract_from_cause (CauseVal.buildCause vars arn) =
      if (pyFalsy (firstEnvValue vars "PK")
          || pyFalsy (firstEnvValue vars "SK")) = true
      then Except.error "PK or SK not found in cause"
      else Except.ok ((firstEnvValue vars "PK").getD "",
        (firstEnvValue vars "SK").getD "", arn.getD "") := rfl

/-- On the build cause assembled from the machine's environment-variable
overrides, extraction recovers the record's `PK`/`SK` (when nonempty) and the
build ARN. -/
theorem extract_buildEnvVars (env : SMEnv) (a : String)
    (hpk : env.pk ≠ "") (hsk : env.sk ≠ "") :
    extract_from_cause (CauseVal.buildCause (buildEnvVars env) (some a))
      = Except.ok (env.pk, env.sk, a) := by
  rw [extract_from_cause_buildCause]
  have h1 : firstEnvValue (buildEnvVars env) "PK" = some env.pk := rfl
  have h2 : firstEnvValue (buildEnvVars env) "SK" = some env.sk := rfl
  rw [h1, h2]
  simp [pyFalsy, hpk, hsk]

/-- Counterexample to C4 as stated: a cause whose `PK` entry pairs the name
with the empty-string value.  The claim predicts the extraction returns that
value (`Except.ok ("", "BOT#abc", "arn:build:1")`), but Python's `if not pk`
treats the found empty string as missing and the code raises `ValueError`. -/
theorem C4_counterexample :
    extract_from_cause (CauseVal.buildCause
      [⟨"PK", ""⟩, ⟨"SK", "BOT#abc"⟩] (some "arn:build:1"))
      = Except.error "PK or SK not found in cause" := rfl

/-- C4 (amended): for every parsed cause with `Build` present, if the first
`PK` entry and the first `SK` entry both exist with nonempty values and
`Build.Arn` is present, `extract_from_cause` returns exactly those two values
and that ARN; if the first `PK` value or the first `SK` value is absent (and
likewise, per the counterexample, when it is the empty string), it raises
`ValueError("PK or SK not found in cause")`. -/
theorem C4_amended_extract :
    (∀ (vars : List EnvVar) (pkv skv a : String),
      firstEnvValue vars "PK" = some pkv → pkv ≠ "" →
      firstEnvValue vars "SK" = some skv → skv ≠ "" →
      extract_from_cause (CauseVal.buildCause vars (some a))
        = Except.ok (pkv, skv, a))
    ∧ (∀ (vars : List EnvVar) (arn : Option String),
      firstEnvValue vars "PK" = none ∨ firstEnvValue vars "SK" = none →
      extract_from_cause (CauseVal.buildCause vars arn)
        = Except.error "PK or SK not found in cause") := by
  constructor
  · intro vars pkv skv a hpk hpkne hsk hskne
    rw [extract_from_cause_buildCause, hpk, hsk]
    simp [pyFalsy, hpkne, hskne]
  · intro vars arn h
    rw [extract_from_cause_buildCause]
    rcases h with h | h <;> simp [h, pyFalsy]

/-- Witness for C4: the spec's own example cause extracts to
`pk="user1"`, `sk="BOT#abc"`, `build_arn="arn:build:1"`. -/
theorem C4_witness :
    extract_from_cause (CauseVal.buildCause
      [⟨"PK", "user1"⟩, ⟨"SK", "BOT#abc"⟩] (some "arn:build:1"))
      = Except.ok ("user1", "BOT#abc", "arn:build:1") :=
  C4_amended_extract.1 [⟨"PK", "user1"⟩, ⟨"SK", "BOT#abc"⟩] "user1" "BOT#abc"
    "arn:build:1" rfl (by decide) rfl (by decide)

/-! ## Claim C9: precedence of the three status-update payload shapes -/

/-- Counterexample to C9 as stated: an event whose `cause` is non-empty but is
not a build payload (here the serialized error object of a failed Lambda task,
which has no `Build` key), with the `ingestion_job`, `pk`, `sk` and
`sync_status` fields all present.  The claim predicts it is processed as a
build failure, producing status `FAILED` with the raw cause as reason; the
handler instead raises inside `extract_from_cause` and performs no write. -/
theorem C9_counterexample :
    resolveUpdate
      { cause := some ("errorMessage", CauseVal.noBuildKey),
        ingestion_job := some ⟨"reasons-list", "job-42"⟩,
        pk := some "u1", sk := some "BOT#b1", sync_status := some "SUCCEEDED",
        sync_status_reason := some "r", last_exec_id := some "x" }
      = Except.error "KeyError" := rfl

/-- C9 (amended): the handler resolves the three payload shapes by fixed
precedence: a non-empty `cause` is always processed by the build-failure
branch regardless of the other fields — yielding status `FAILED`, reason the
raw cause string and `last_exec_id` the extracted `Build.Arn` (or `""`) when
extraction succeeds, and an error (no write) when it does not; only otherwise
is a non-empty `ingestion_job` processed; only otherwise the direct shape,
whose missing `sync_status_reason` and `last_exec_id` default to `""`. -/
theorem C9_amended_precedence :
    (∀ (e : UpdEvent) (raw : String) (val : CauseVal),
      e.cause = some (raw, val) → raw ≠ "" →
      resolveUpdate e =
        match extract_from_cause val with
        | Except.ok (pk, sk, arn) => Except.ok ⟨pk, sk, "FAILED", raw, arn⟩
        | Except.error m => Except.error m)
    ∧ (∀ (e : UpdEvent) (job : IngestionJobField),
      causeTruthy e.cause = false → e.ingestion_job = some job →
      resolveUpdate e =
        match e.pk, e.sk with
        | some pk, some sk =>
          Except.ok ⟨pk, sk, "FAILED", job.failureReasonsText, job.ingestionJobId⟩
        | _, _ => Except.error "KeyError")
    ∧ (∀ (e : UpdEvent),
      causeTruthy e.cause = false → e.ingestion_job = none →
      resolveUpdate e =
        match e.pk, e.sk, e.sync_status with
        | some pk, some sk, some st =>
          Except.ok ⟨pk, sk, st, e.sync_status_reason.getD "", e.last_exec_id.getD ""⟩
        | _, _, _ => Except.error "KeyError") := by
  refine ⟨?_, ?_, ?_⟩
  · intro e raw val hc hraw
    simp [resolveUpdate, hc, hraw]
  · intro e job hct hj
    cases hc : e.cause with
    | none => simp [resolveUpdate, hc, resolveNonCause, hj]
    | some rv =>
      obtain ⟨raw, val⟩ := rv
      rw [hc] at hct
      simp [causeTruthy] at hct
      simp [resolveUpdate, hc, hct, resolveNonCause, hj]
  · intro e hct hj
    cases hc : e.cause with
    | none => simp [resolveUpdate, hc, resolveNonCause, hj]
    | some rv =>
      obtain ⟨raw, val⟩ := rv
      rw [hc] at hct
      simp [causeTruthy] at hct
      simp [resolveUpdate, hc, hct, resolveNonCause, hj]

/-- Witness for C9: a direct-shape event with absent `sync_status_reason` and
`last_exec_id` resolves to a write with both defaulted to `""`. -/
theorem C9_witness :
    resolveUpdate
      { cause := none, ingestion_job := none, pk := some "u1",
        sk := some "BOT#b1", sync_status := some "RUNNING",
        sync_status_reason := none, last_exec_id := none }
      = Except.ok ⟨"u1", "BOT#b1", "RUNNING", "", ""⟩ :=
  C9_amended_precedence.2.2
    { cause := none, ingestion_job := none, pk := some "u1",
      sk := some "BOT#b1", sync_status := some "RUNNING",
      sync_status_reason := none, last_exec_id := none } rfl rfl

/-! ## Claim C10: the Cognito trigger Update branch -/

/-- Counterexample to C10 as stated: a trigger key (`PreSignUp`) present in
the current `LambdaConfig` and not listed in the old `Triggers`, yet bound by
the new `Triggers`: the claim's consequence says it is preserved unchanged,
but the merge gives it the new value. -/
theorem C10_counterexample :
    (pyLookup (updateRequestLambdaConfig [("PreSignUp", "arn-old")] []
      [("PreSignUp", "arn-new")]) "PreSignUp" = some "arn-new")
    ∧ (pyLookup [("PreSignUp", "arn-old")] "PreSignUp" = some "arn-old") :=
  ⟨rfl, rfl⟩

/-- C10 (amended): on an `Update` request the resulting `LambdaConfig` equals
the current `LambdaConfig` with all keys that appear in the old resource's
`Triggers` removed, merged with the new `Triggers` (new values winning);
hence every trigger key present in the current `LambdaConfig`, not listed in
the old `Triggers` and not set in the new `Triggers`, is preserved
unchanged. -/
theorem C10_amended_trigger_update (current old triggers : PyDict) (k : String) :
    (pyLookup (updateRequestLambdaConfig current old triggers) k =
      match pyLookup triggers k with
      | some v => some v
      | none => if pyHasKey old k = true then none else pyLookup current k)
    ∧ (pyHasKey old k = false → pyHasKey triggers k = false →
      pyLookup (updateRequestLambdaConfig current old triggers) k
        = pyLookup current k) := by
  have hmain : pyLookup (updateRequestLambdaConfig current old triggers) k =
      match pyLookup triggers k with
      | some v => some v
      | none => if pyHasKey old k = true then none else pyLookup current k := by
    unfold updateRequestLambdaConfig removeOldTriggerKeys
    rw [pyLookup_merge,
      pyLookup_filter_key current (fun x => !(pyHasKey old x)) k]
    cases pyLookup triggers k <;> cases h : pyHasKey old k <;> simp [h]
  refine ⟨hmain, fun hold htr => ?_⟩
  rw [hmain]
  have htr' : pyLookup triggers k = none := by
    unfold pyHasKey at htr
    cases h : pyLookup triggers k
    · rfl
    · rw [h] at htr; simp at htr
  rw [htr', hold]
  simp

/-- Witness for C10: a trigger key in the current config, absent from both the
old and the new `Triggers`, keeps its current value. -/
theorem C10_witness :
    pyLookup (updateRequestLambdaConfig
      [("PreSignUp", "a1"), ("PostConfirmation", "a2")]
      [("PreSignUp", "a1")] [("CustomMessage", "a3")]) "PostConfirmation"
    = pyLookup [("PreSignUp", "a1"), ("PostConfirmation", "a2")] "PostConfirmation" :=
  (C10_amended_trigger_update
    [("PreSignUp", "a1"), ("PostConfirmation", "a2")]
    [("PreSignUp", "a1")] [("CustomMessage", "a3")] "PostConfirmation").2 rfl rfl


/-! ## Claim C3: the change-feed filter -/

/-- C3: a change record whose new `SyncStatus` string is `s` yields a pipe
invocation if and only if `s` starts with `QUEUED`; every delivered invocation
carries exactly one record of the batch (`batch_size = 1`), and the target is
started with `FIRE_AND_FORGET`. -/
theorem C3_pipe_invocation_filter (records : List ChangeRecord) (r : ChangeRecord)
    (s : String) (hs : r.syncStatus = some s) :
    (([r] ∈ pipeDeliveredInvocations records) ↔
      (r ∈ records ∧ strStartsWith "QUEUED" s = true))
    ∧ (∀ b, b ∈ pipeDeliveredInvocations records → ∃ x, x ∈ records ∧ b = [x])
    ∧ pipe_invocation_type = "FIRE_AND_FORGET"
    ∧ pipe_batch_size = 1 := by
  refine ⟨?_, ?_, rfl, rfl⟩
  · constructor
    · intro hmem
      rw [pipeDeliveredInvocations] at hmem
      obtain ⟨x, hx, hxr⟩ := List.mem_map.mp hmem
      obtain ⟨hxrec, hxmatch⟩ := List.mem_filter.mp hx
      have hxr' : x = r := by simpa using hxr
      subst hxr'
      rw [pipeFilterMatches, hs] at hxmatch
      exact ⟨hxrec, hxmatch⟩
    · intro ⟨hrec, hmatch⟩
      rw [pipeDeliveredInvocations]
      apply List.mem_map.mpr
      refine ⟨r, List.mem_filter.mpr ⟨hrec, ?_⟩, rfl⟩
      rw [pipeFilterMatches, hs]
      exact hmatch
  · intro b hb
    rw [pipeDeliveredInvocations] at hb
    obtain ⟨x, hx, hxb⟩ := List.mem_map.mp hb
    exact ⟨x, (List.mem_filter.mp hx).1, hxb.symm⟩

/-- The spec's example change batch: statuses `QUEUED`, `QUEUED_RETRY`,
`RUNNING`, `SUCCEEDED`. -/
def pipeBatch4 : List ChangeRecord :=
  [⟨"u1", "BOT#b1", some "QUEUED"⟩, ⟨"u1", "BOT#b2", some "QUEUED_RETRY"⟩,
   ⟨"u1", "BOT#b3", some "RUNNING"⟩, ⟨"u1", "BOT#b4", some "SUCCEEDED"⟩]

/-- Witness for C3, at the spec's example batch: the `QUEUED_RETRY` record is
delivered (in its own single-record invocation) because its status starts
with `QUEUED`. -/
theorem C3_witness :
    (([(⟨"u1", "BOT#b2", some "QUEUED_RETRY"⟩ : ChangeRecord)]
        ∈ pipeDeliveredInvocations pipeBatch4) ↔
      ((⟨"u1", "BOT#b2", some "QUEUED_RETRY"⟩ : ChangeRecord) ∈ pipeBatch4
        ∧ strStartsWith "QUEUED" "QUEUED_RETRY" = true))
    ∧ (∀ b, b ∈ pipeDeliveredInvocations pipeBatch4 →
        ∃ x, x ∈ pipeBatch4 ∧ b = [x])
    ∧ pipe_invocation_type = "FIRE_AND_FORGET"
    ∧ pipe_batch_size = 1 :=
  C3_pipe_invocation_filter pipeBatch4 ⟨"u1", "BOT#b2", some "QUEUED_RETRY"⟩
    "QUEUED_RETRY" rfl

/-! ## Claim C6: missing stack outputs -/

/-- Run environment in which the build succeeds but the stack outputs hold a
knowledge-base id and zero data-source ids. -/
def envC6 : SMEnv :=
  { pk := "u1", sk := "BOT#b1", documentBucket := "db", knowledgeJson := "kj",
    kbConfigJson := "kb", guardrailsJson := "gj", useStandbyReplicas := "False",
    runningDbOk := true, build := BuildOutcome.success,
    cfOutputs := [⟨"KnowledgeBaseId", "kb1"⟩],
    storeKbOk := true, storeGuardrailOk := true,
    jobStatuses := fun _ => ["COMPLETE"], failedDbOk := true,
    succeededDbOk := true }

/-- C6, evaluated at the failing input (code bug): with one knowledge-base id
and zero data-source ids the Output Fetcher step does raise the claimed
`ValueError("Required stack outputs missing")` — but the catch edge does not
record `FAILED` on the record.  The fallback invokes the status updater with
the serialized Lambda error object as `cause`; `extract_from_cause` needs
`cause["Build"]["Environment"]["EnvironmentVariables"]` and raises, so the run
terminates with only the `RUNNING` write performed and the explicit `Fail`
state never reached. -/
theorem C6_missing_outputs_run :
    (fetch_stack_output_handler "u1" "BOT#b1" [⟨"KnowledgeBaseId", "kb1"⟩]
      = Except.error "Required stack outputs missing")
    ∧ runMachine envC6 =
      ⟨[Ev.statusWrite "u1" "BOT#b1" "RUNNING" "" "", Ev.buildStart],
       RunTerminal.runtimeError⟩ :=
  ⟨rfl, rfl⟩

/-! ## Claim C8: the end-to-end happy path -/

/-- C8: for every run in which the RUNNING write succeeds, the build succeeds,
the fetch yields an output list, both persistence steps succeed, every
ingestion job polls to `COMPLETE` and the final write succeeds, the machine
executes, in order: the `RUNNING` write, the build, the output fetch, the
knowledge-base persistence, the guardrail persistence, one ingestion start per
data source in list order, and finally the `SUCCEEDED` write with the fixed
reason `Knowledge base sync succeeded`. -/
theorem C8_happy_path (env : SMEnv) (items : List StackOutput)
    (h1 : env.runningDbOk = true) (h2 : env.build = BuildOutcome.success)
    (h3 : fetch_stack_output_handler env.pk env.sk env.cfOutputs = Except.ok items)
    (h4 : env.storeKbOk = true) (h5 : env.storeGuardrailOk = true)
    (h6 : ∀ j, j < items.length → pollJob (env.jobStatuses j) = JobEnd.complete)
    (h7 : env.succeededDbOk = true) :
    runMachine env =
      ⟨[Ev.statusWrite env.pk env.sk "RUNNING" "" "", Ev.buildStart, Ev.fetchOutputs,
        Ev.storeKnowledgeBase, Ev.storeGuardrail]
        ++ items.map (fun it => Ev.ingestStart it.DataSourceId)
        ++ [Ev.statusWrite env.pk env.sk "SUCCEEDED" "Knowledge base sync succeeded" ""],
       RunTerminal.success⟩ := by
  have hing := runIngestion_all_complete env.jobStatuses items 0
    (fun j hj => by simpa using h6 j hj)
  simp [runMachine, buildPhase, fetchPhase, storesPhase, ingestionPhase,
    succeededPhase, resolveUpdate, resolveNonCause, syncStatusTaskPayload,
    statusWriteEv, h1, h2, h3, h4, h5, h7, hing]

/-- Run environment for the spec's end-to-end scenario: record `u1`/`BOT#b1`,
outputs `kb1` with data sources `ds1`, `ds2`, every step healthy. -/
def envC8 : SMEnv :=
  { pk := "u1", sk := "BOT#b1", documentBucket := "db", knowledgeJson := "kj",
    kbConfigJson := "kb", guardrailsJson := "gj", useStandbyReplicas := "False",
    runningDbOk := true, build := BuildOutcome.success,
    cfOutputs := [⟨"KnowledgeBaseId", "kb1"⟩, ⟨"DataSource1", "ds1"⟩,
      ⟨"DataSource2", "ds2"⟩],
    storeKbOk := true, storeGuardrailOk := true,
    jobStatuses := fun _ => ["STARTING", "COMPLETE"],
    failedDbOk := true, succeededDbOk := true }

/-- Witness for C8, at the spec's end-to-end scenario. -/
theorem C8_witness :
    runMachine envC8 =
      ⟨[Ev.statusWrite "u1" "BOT#b1" "RUNNING" "" "", Ev.buildStart, Ev.fetchOutputs,
        Ev.storeKnowledgeBase, Ev.storeGuardrail, Ev.ingestStart "ds1",
        Ev.ingestStart "ds2",
        Ev.statusWrite "u1" "BOT#b1" "SUCCEEDED" "Knowledge base sync succeeded" ""],
       RunTerminal.success⟩ :=
  C8_happy_path envC8
    [⟨"kb1", "ds1", "", "", "u1", "BOT#b1"⟩, ⟨"kb1", "ds2", "", "", "u1", "BOT#b1"⟩]
    rfl rfl rfl rfl rfl (fun _ _ => rfl) rfl


/-! ## Claim C2: ingestion failure aborts the fan-out -/

/-- Run environment for the spec's scenario: three data sources, the second
ingestion job reaching status `FAILED`, every other dependency healthy. -/
def envC2 : SMEnv :=
  { pk := "u1", sk := "BOT#b1", documentBucket := "db", knowledgeJson := "kj",
    kbConfigJson := "kb", guardrailsJson := "gj", useStandbyReplicas := "False",
    runningDbOk := true, build := BuildOutcome.success,
    cfOutputs := [⟨"KnowledgeBaseId", "kb1"⟩, ⟨"DataSource1", "ds1"⟩,
      ⟨"DataSource2", "ds2"⟩, ⟨"DataSource3", "ds3"⟩],
    storeKbOk := true, storeGuardrailOk := true,
    jobStatuses := fun i => if i = 1 then ["FAILED"] else ["COMPLETE"],
    failedDbOk := true, succeededDbOk := true }

/-- C2, evaluated at the failing input (code bug): with three data sources and
the second ingestion job reaching `FAILED`, the map (concurrency 1) does abort
before starting the third job — but the claimed `FAILED` status write never
happens.  The failure branch invokes the status updater with payload
`cause.$ = $.Cause`, a path that does not exist in the map-iterator context,
so the payload computation fails and the execution terminates with a runtime
error: no write records the failed job's failure reasons or its job id, and
the handler's `ingestion_job` branch (`update_bot_status/index.py` lines
142-147), which implements exactly the claimed write, is never sent its
payload by this state machine. -/
theorem C2_ingestion_failure_run :
    (runMachine envC2 =
      ⟨[Ev.statusWrite "u1" "BOT#b1" "RUNNING" "" "", Ev.buildStart, Ev.fetchOutputs,
        Ev.storeKnowledgeBase, Ev.storeGuardrail, Ev.ingestStart "ds1",
        Ev.ingestStart "ds2"], RunTerminal.runtimeError⟩)
    ∧ ((runMachine envC2).events.count (Ev.ingestStart "ds3") = 0)
    ∧ ((runMachine envC2).events.all (fun e =>
        match e with
        | Ev.statusWrite _ _ st _ _ => !(st == "FAILED")
        | _ => true) = true) :=
  ⟨rfl, rfl, rfl⟩

/-! ## Claim C1: which step failures reach the failure funnel -/

/-- Run environment in which the `RUNNING` status write itself fails
(the store write keeps failing until the retry bound is exhausted). -/
def envC1 : SMEnv :=
  { pk := "u1", sk := "BOT#b1", documentBucket := "db", knowledgeJson := "kj",
    kbConfigJson := "kb", guardrailsJson := "gj", useStandbyReplicas := "False",
    runningDbOk := false, build := BuildOutcome.success,
    cfOutputs := [⟨"KnowledgeBaseId", "kb1"⟩, ⟨"DataSource1", "ds1"⟩],
    storeKbOk := true, storeGuardrailOk := true,
    jobStatuses := fun _ => ["COMPLETE"], failedDbOk := true,
    succeededDbOk := true }

/-- Counterexample to C1 as stated: the mark-RUNNING step fails, yet no
`FAILED` status is written (no status write happens at all) and the run ends
in an execution failure, not in the explicit `Fail` state: the
`UpdateSyncStatusRunning` state has no catch transition (`embeddings.py` lines
509-512 attach the catch to only four other states). -/
theorem C1_counterexample :
    runMachine envC1 = ⟨[], RunTerminal.runtimeError⟩ := rfl

/-- C1 (amended): only the start-build, fetch-outputs, persist-knowledge-base
and persist-guardrail steps carry the catch-all transition to the shared
failure handler.  Of those, a build failure (with nonempty record keys and a
healthy store) does produce the `FAILED` write with the cause as reason and
the build ARN as `last_exec_id` before the explicit `Fail` state; a fetch or
persistence failure is caught but its Lambda-error cause cannot be parsed by
the failure handler, so the run terminates with a runtime error and no
`FAILED` write; failures of the mark-RUNNING and mark-SUCCEEDED writes and of
the ingestion phase are uncaught and likewise terminate the run without any
`FAILED` write. -/
theorem C1_amended_failure_routing :
    (∀ env : SMEnv, env.runningDbOk = false →
      runMachine env = ⟨[], RunTerminal.runtimeError⟩)
    ∧ (∀ (env : SMEnv) (raw arn : String), env.runningDbOk = true →
        env.build = BuildOutcome.failure raw arn → raw ≠ "" →
        env.pk ≠ "" → env.sk ≠ "" → env.failedDbOk = true →
        runMachine env =
          ⟨[Ev.statusWrite env.pk env.sk "RUNNING" "" "", Ev.buildStart,
            Ev.statusWrite env.pk env.sk "FAILED" raw arn],
           RunTerminal.failState⟩)
    ∧ (∀ env : SMEnv, env.runningDbOk = true →
        env.build = BuildOutcome.success →
        fetch_stack_output_handler env.pk env.sk env.cfOutputs
          = Except.error "Required stack outputs missing" →
        runMachine env =
          ⟨[Ev.statusWrite env.pk env.sk "RUNNING" "" "", Ev.buildStart],
           RunTerminal.runtimeError⟩)
    ∧ (∀ (env : SMEnv) (items : List StackOutput), env.runningDbOk = true →
        env.build = BuildOutcome.success →
        fetch_stack_output_handler env.pk env.sk env.cfOutputs = Except.ok items →
        env.storeKbOk = false →
        runMachine env =
          ⟨[Ev.statusWrite env.pk env.sk "RUNNING" "" "", Ev.buildStart,
            Ev.fetchOutputs], RunTerminal.runtimeError⟩)
    ∧ (∀ (env : SMEnv) (items : List StackOutput), env.runningDbOk = true →
        env.build = BuildOutcome.success →
        fetch_stack_output_handler env.pk env.sk env.cfOutputs = Except.ok items →
        env.storeKbOk = true → env.storeGuardrailOk = false →
        runMachine env =
          ⟨[Ev.statusWrite env.pk env.sk "RUNNING" "" "", Ev.buildStart,
            Ev.fetchOutputs, Ev.storeKnowledgeBase], RunTerminal.runtimeError⟩)
    ∧ (∀ (env : SMEnv) (items : List StackOutput) (ingEvs : List Ev) (j : Nat),
        env.runningDbOk = true → env.build = BuildOutcome.success →
        fetch_stack_output_handler env.pk env.sk env.cfOutputs = Except.ok items →
        env.storeKbOk = true → env.storeGuardrailOk = true →
        runIngestion env.jobStatuses items 0 = (ingEvs, MapEnd.failedAt j) →
        runMachine env =
          ⟨[Ev.statusWrite env.pk env.sk "RUNNING" "" "", Ev.buildStart,
            Ev.fetchOutputs, Ev.storeKnowledgeBase, Ev.storeGuardrail] ++ ingEvs,
           RunTerminal.runtimeError⟩
          ∧ (∀ e, e ∈ ingEvs → ∃ ds, e = Ev.ingestStart ds))
    ∧ (∀ (env : SMEnv) (items : List StackOutput), env.runningDbOk = true →
        env.build = BuildOutcome.success →
        fetch_stack_output_handler env.pk env.sk env.cfOutputs = Except.ok items →
        env.storeKbOk = true → env.storeGuardrailOk = true →
        (∀ j, j < items.length → pollJob (env.jobStatuses j) = JobEnd.complete) →
        env.succeededDbOk = false →
        runMachine env =
          ⟨[Ev.statusWrite env.pk env.sk "RUNNING" "" "", Ev.buildStart,
            Ev.fetchOutputs, Ev.storeKnowledgeBase, Ev.storeGuardrail]
            ++ items.map (fun it => Ev.ingestStart it.DataSourceId),
           RunTerminal.runtimeError⟩) := by
  refine ⟨?_, ?_, ?_, ?_, ?_, ?_, ?_⟩
  · intro env h
    simp [runMachine, resolveUpdate, resolveNonCause, syncStatusTaskPayload, h]
  · intro env raw arn h1 hb hraw hpk hsk hf
    have hex := extract_buildEnvVars env arn hpk hsk
    simp [runMachine, buildPhase, fallbackRun, resolveUpdate, resolveNonCause,
      syncStatusTaskPayload, statusWriteEv, h1, hb, hraw, hf, hex]
  · intro env h1 h2 h3
    simp [runMachine, buildPhase, fetchPhase, fallbackRun, resolveUpdate,
      resolveNonCause, syncStatusTaskPayload, statusWriteEv, lambdaErrorCauseRaw,
      extract_from_cause, h1, h2, h3]
  · intro env items h1 h2 h3 h4
    simp [runMachine, buildPhase, fetchPhase, storesPhase, fallbackRun,
      resolveUpdate, resolveNonCause, syncStatusTaskPayload, statusWriteEv,
      lambdaErrorCauseRaw, extract_from_cause, h1, h2, h3, h4]
  · intro env items h1 h2 h3 h4 h5
    simp [runMachine, buildPhase, fetchPhase, storesPhase, fallbackRun,
      resolveUpdate, resolveNonCause, syncStatusTaskPayload, statusWriteEv,
      lambdaErrorCauseRaw, extract_from_cause, h1, h2, h3, h4, h5]
  · intro env items ingEvs j h1 h2 h3 h4 h5 hing
    constructor
    · simp [runMachine, buildPhase, fetchPhase, storesPhase, ingestionPhase,
        resolveUpdate, resolveNonCause, syncStatusTaskPayload, statusWriteEv,
        h1, h2, h3, h4, h5, hing]
    · intro e he
      have := runIngestion_events_shape env.jobStatuses items 0 e
      rw [hing] at this
      exact this he
  · intro env items h1 h2 h3 h4 h5 h6 h7
    have hing := runIngestion_all_complete env.jobStatuses items 0
      (fun j hj => by simpa using h6 j hj)
    simp [runMachine, buildPhase, fetchPhase, storesPhase, ingestionPhase,
      succeededPhase, resolveUpdate, resolveNonCause, syncStatusTaskPayload,
      statusWriteEv, h1, h2, h3, h4, h5, h7, hing]

/-- Run environment for the C1 witness: identical to `envC1` except that the
`RUNNING` write succeeds and the build fails. -/
def envC1build : SMEnv :=
  { envC1 with runningDbOk := true, build := BuildOutcome.failure "rawcause" "arn:build:1" }

/-- Witness for C1 (amended), at the build-failure conjunct: a failed build on
record `u1`/`BOT#b1` yields the `RUNNING` write, the build start, the `FAILED`
write carrying the raw cause and the build ARN, and the `Fail` terminal. -/
theorem C1_witness :
    runMachine envC1build =
      ⟨[Ev.statusWrite envC1build.pk envC1build.sk "RUNNING" "" "", Ev.buildStart,
        Ev.statusWrite envC1build.pk envC1build.sk "FAILED" "rawcause" "arn:build:1"],
       RunTerminal.failState⟩ :=
  C1_amended_failure_routing.2.1 envC1build "rawcause" "arn:build:1"
    (by rfl) (by rfl) (by decide) (by decide) (by decide) (by rfl)

end FinInsight
